import Mathlib

/-!
Shallow embedding of the `@pocketgems/schema` builder (`src/schema.js`, current
version): a fluent JSON-Schema node builder with a lock / copy-on-write
discipline.  JavaScript objects holding schema properties are modelled as
insertion-ordered association lists of JSON values; the class hierarchy
(`BaseSchema` and its subclasses) is flattened into a single `Schema` structure
carrying a kind tag, since the subclasses only differ in a few static constants
and overridden methods.  `MapSchema` keeps extra per-instance state and is
modelled as a separate structure wrapping its inherited `ObjectSchema` state.
Methods that can throw (`assert.ok`) return `Except String` carrying the exact
assertion message.
-/

/-- A JavaScript JSON value as stored in a schema's `__properties` bag. -/
inductive JVal where
  | str (s : String)
  | int (n : Int)
  | bool (b : Bool)
  | null
  | arr (xs : List JVal)
  | obj (kvs : List (String × JVal))

/-- A JavaScript object used as a dictionary: insertion-ordered key/value list
with unique keys (matching `this.__properties` and the nested `properties`,
`patternProperties` objects). -/
abbrev Bag := List (String × JVal)

/-- Dictionary lookup (`obj[name]`, `undefined` becomes `none`). -/
def bagGet : Bag → String → Option JVal
  | [], _ => none
  | (k, v) :: rest, name => if k = name then some v else bagGet rest name

/-- `Object.prototype.hasOwnProperty.call(obj, name)`. -/
def bagHas (b : Bag) (name : String) : Bool :=
  (bagGet b name).isSome

/-- Dictionary assignment `obj[name] = val`: replaces in place when the key is
present (keeping its position), otherwise appends. -/
def bagSet : Bag → String → JVal → Bag
  | [], name, val => [(name, val)]
  | (k, v) :: rest, name, val =>
    if k = name then (name, val) :: rest else (k, v) :: bagSet rest name val

/-- The concrete schema classes (the `Map` variant is modelled separately as
`MapSchema`; it inherits `ObjectSchema`'s JSON-schema type `object`). -/
inductive SKind where
  | object
  | array
  | number
  | integer
  | string
  | boolean
  | media
deriving DecidableEq

/-- The static `JSON_SCHEMA_TYPE` of each class (Media inherits `string`). -/
def SKind.typeName : SKind → String
  | .object => "object"
  | .array => "array"
  | .number => "number"
  | .integer => "integer"
  | .string => "string"
  | .boolean => "boolean"
  | .media => "string"

/-- The static `MAX_PROP_NAME` of each class.  `BooleanSchema` leaves the base
class's field undeclared, so in JavaScript the property key is the string
`"undefined"`; no code path in the library uses it. -/
def SKind.maxPropName : SKind → String
  | .object => "maxProperties"
  | .array => "maxItems"
  | .number => "maximum"
  | .integer => "maximum"
  | .string => "maxLength"
  | .boolean => "undefined"
  | .media => "maxLength"

/-- The static `MIN_PROP_NAME` of each class. -/
def SKind.minPropName : SKind → String
  | .object => "minProperties"
  | .array => "minItems"
  | .number => "minimum"
  | .integer => "minimum"
  | .string => "minLength"
  | .boolean => "undefined"
  | .media => "minLength"

/-- Flattened state of a schema node (`BaseSchema` and subclasses).
`objKeys`/`patKeys` are the key sets of `ObjectSchema`'s `objectSchemas` /
`patternSchemas` instance fields: the attached child schema objects themselves
are only ever consulted through those key sets (for the derived
`additionalProperties`) or through the exported sub-bags which are also stored
inside `props`, so only the keys are kept here. -/
structure Schema where
  kind : SKind
  props : Bag
  isLocked : Bool
  isOptional : Bool
  isFloat : Bool
  objKeys : List String
  patKeys : List String

/-- `new <Class>()`: the constructor chain sets `type` in the fresh bag and
initializes all instance flags/maps. -/
def newSchema (k : SKind) : Schema :=
  { kind := k
    props := [("type", JVal.str k.typeName)]
    isLocked := false
    isOptional := false
    isFloat := false
    objKeys := []
    patKeys := [] }

/-- `BaseSchema.lock`. -/
def Schema.lock (s : Schema) : Schema :=
  { s with isLocked := true }

/-- `BaseSchema.getProp`. -/
def Schema.getProp (s : Schema) (name : String) : Option JVal :=
  bagGet s.props name

/-- `BaseSchema.copy` (with the subclass overrides folded in):
`new this.constructor()`, deep-copy of the property bag, copy of
`__isOptional`, plus `ObjectSchema.copy`'s merge of the child key maps and
`NumberSchema.copy`'s `__isFloat`.  The fresh node is unlocked. -/
def Schema.copy (s : Schema) : Schema :=
  { kind := s.kind
    props := s.props
    isLocked := false
    isOptional := s.isOptional
    isFloat := s.isFloat
    objKeys := s.objKeys
    patKeys := s.patKeys }

/-- `BaseSchema.__setProp`.  Besides the node holding the change, the returned
`Bool` records whether that node is the receiver itself (`ret === this` in the
source), `false` meaning an independent copy was allocated. -/
def Schema.setProp (s : Schema) (name : String) (val : JVal)
    (allowOverride : Bool) : Except String (Schema × Bool) :=
  if !(!s.isLocked || allowOverride) then
    .error "Schema is locked. Call copy then further modify the schema"
  else if !(allowOverride || !bagHas s.props name) then
    .error s!"Property {name} is already set."
  else
    let shouldCopy := s.isLocked || (allowOverride && bagHas s.props name)
    let r0 := if shouldCopy then s.copy else s
    let r1 := { r0 with props := bagSet r0.props name val }
    let r2 := if s.isLocked then r1.lock else r1
    .ok (r2, !shouldCopy)

/-- `BaseSchema.title` (takes any JavaScript value; non-strings fail the
`typeof` assertion). -/
def Schema.title (s : Schema) (t : JVal) : Except String (Schema × Bool) :=
  match t with
  | .str v => s.setProp "title" (.str v) true
  | _ => .error "Title must be a string."

/-- `d.trim().replace(/\n/g, ' ')` from `BaseSchema.desc`: strip leading and
trailing whitespace, then replace every newline with a space. -/
def descNormalize (d : String) : String :=
  let trimmed := ((d.toList.dropWhile Char.isWhitespace).reverse.dropWhile
    Char.isWhitespace).reverse
  String.mk (trimmed.map (fun c => if c = '\n' then ' ' else c))

/-- `BaseSchema.desc` (current version: only a single string is accepted; the
input is trimmed and each embedded newline replaced by a space). -/
def Schema.desc (s : Schema) (d : JVal) : Except String (Schema × Bool) :=
  match d with
  | .str v => s.setProp "description" (.str (descNormalize v)) true
  | _ => .error "Description must be a string."

mutual

/-- JavaScript `ToString` of a value as used by `Array.prototype.join` and
computed property names (arrays join their elements with commas). -/
def jsToString : JVal → String
  | .str t => t
  | .int n => toString n
  | .bool b => if b then "true" else "false"
  | .null => ""
  | .obj _ => "[object Object]"
  | .arr xs => jsToStringJoin xs

/-- Comma-join of list elements, each converted by `jsToString`. -/
def jsToStringJoin : List JVal → String
  | [] => ""
  | [x] => jsToString x
  | x :: y :: rest => jsToString x ++ "," ++ jsToStringJoin (y :: rest)

end

/-- `BaseSchema.examples`: each element that is itself an array is joined by a
space character into one example string. -/
def Schema.examples (s : Schema) (es : JVal) : Except String (Schema × Bool) :=
  match es with
  | .arr xs =>
    let mapped := xs.map (fun e =>
      match e with
      | .arr ys => JVal.str (String.intercalate " " (ys.map jsToString))
      | other => other)
    s.setProp "examples" (.arr mapped) true
  | _ => .error "Examples must be an array"

/-- `BaseSchema.default` (`none` stands for the JavaScript `undefined`;
`Object.freeze` has no observable effect in a value model). -/
def Schema.default (s : Schema) (d : Option JVal) : Except String (Schema × Bool) :=
  match d with
  | none => .error "Default value must be defined"
  | some v => s.setProp "default" v false

/-- `BaseSchema.readOnly`. -/
def Schema.readOnly (s : Schema) (r : Bool) : Except String (Schema × Bool) :=
  s.setProp "readOnly" (.bool r) false

/-- `BaseSchema.optional`. -/
def Schema.optional (s : Schema) : Except String Schema :=
  if s.isLocked then .error "Schema is locked."
  else .ok { s with isOptional := true }

/-- The `required` getter. -/
def Schema.required (s : Schema) : Bool :=
  !s.isOptional

/-- `__validateRangeProperty` with the subclass overrides folded in: every
`Int` input satisfies `Number.isInteger` and `Number.isFinite`, so the number
and integer overrides always pass, and the base version only checks
non-negativity. -/
def validateRangeProperty (k : SKind) (name : String) (val : Int) :
    Except String Unit :=
  match k with
  | .number => .ok ()
  | .integer => .ok ()
  | _ => if val < 0 then .error s!"{name} must be a non-negative number" else .ok ()

/-- `BaseSchema.min`: validates the input, cross-checks an already-set maximum,
then routes through `__setProp`.  No code path stores a non-number bound, so
that unreachable case is modelled as failing the cross-check. -/
def Schema.min (s : Schema) (val : Int) : Except String (Schema × Bool) :=
  let name := s.kind.minPropName
  match validateRangeProperty s.kind name val with
  | .error e => .error e
  | .ok _ =>
    let crossOk :=
      match s.getProp s.kind.maxPropName with
      | none => true
      | some (.int m) => decide (m ≥ val)
      | some _ => false
    if crossOk then s.setProp name (.int val) false
    else .error "min must be less than max"

/-- `BaseSchema.max`: mirror image of `Schema.min`. -/
def Schema.max (s : Schema) (val : Int) : Except String (Schema × Bool) :=
  let name := s.kind.maxPropName
  match validateRangeProperty s.kind name val with
  | .error e => .error e
  | .ok _ =>
    let crossOk :=
      match s.getProp s.kind.minPropName with
      | none => true
      | some (.int m) => decide (m ≤ val)
      | some _ => false
    if crossOk then s.setProp name (.int val) false
    else .error "max must be more than min"

example : (newSchema .integer).max 5 =
    .ok ({ newSchema .integer with
            props := [("type", .str "integer"), ("maximum", .int 5)] }, true) := rfl

/-- `properties()` with `ObjectSchema`'s override folded in: object-kind nodes
get the derived `additionalProperties` written into the bag.  The instance
field read by `!!this.additionalProperties` is never assigned anywhere in the
source, so it is always `undefined` and the coerced flag is always `false`. -/
def Schema.properties (s : Schema) : Bag :=
  match s.kind with
  | .object =>
    let hasProperty := !s.objKeys.isEmpty || !s.patKeys.isEmpty
    let hasAdditionalProperties := false
    bagSet s.props "additionalProperties" (.bool (!hasProperty || hasAdditionalProperties))
  | _ => s.props

/-- `this.objectSchemas[name] = ...` / `this.patternSchemas[name] = ...` on the
key set: an existing key keeps its position, a new key is appended. -/
def keysAdd (ks : List String) (k : String) : List String :=
  if ks.contains k then ks else ks ++ [k]

/-- The object stored under the bag's `properties` key (`{}` when absent; the
key is only ever set to an object by `prop`/`__setDefaultProp`). -/
def propsEntries (s : Schema) : Bag :=
  match bagGet s.props "properties" with
  | some (.obj kvs) => kvs
  | _ => []

/-- The array stored under the bag's `required` key (`[]` when absent; the key
is only ever set to an array by `prop`/`__setDefaultProp`). -/
def requiredList (s : Schema) : List JVal :=
  match bagGet s.props "required" with
  | some (.arr xs) => xs
  | _ => []

/-- Result of `ObjectSchema.prop`: the receiver after the call (assertion
failures in JavaScript leave the mutations already made in place),
the attached child as seen through the caller's alias (locked), and the
assertion message when the call throws. -/
structure PropResult where
  node : Schema
  lockedChild : Option Schema
  err : Option String

/-- `ObjectSchema.prop`.  `child = none` is the JavaScript `undefined`
argument; the `name` argument is a `String` by type so the string assertion
always passes.  Note `__setDefaultProp('properties', \x7b\x7d)` runs, and can
create the empty `properties` entry, before the duplicate and
schema-definedness assertions. -/
def Schema.prop (s : Schema) (name : String) (child : Option Schema) : PropResult :=
  if s.isLocked then
    ⟨s, none, some "Schema is locked. Call copy then further modify the schema"⟩
  else
    let s1 :=
      if bagHas s.props "properties" then s
      else { s with props := bagSet s.props "properties" (.obj []) }
    let entries := propsEntries s1
    if bagHas entries name then
      ⟨s1, none, some s!"Property with key {name} already exists"⟩
    else
      match child with
      | none => ⟨s1, none, some s!"Property {name} must define a schema"⟩
      | some schema =>
        let lockedChild := schema.lock
        let s2 := { s1 with
          objKeys := keysAdd s1.objKeys name
          props := bagSet s1.props "properties"
            (.obj (bagSet entries name (.obj lockedChild.properties))) }
        if lockedChild.required then
          let s3 := { s2 with
            props := bagSet s2.props "required"
              (.arr (requiredList s2 ++ [.str name])) }
          ⟨s3, some lockedChild, none⟩
        else
          ⟨s2, some lockedChild, none⟩

/-- `getAnchoredPattern`: prefix `^` unless the first character is `^`, suffix
`$` unless the last character is `$` (on the empty string the JavaScript
indexing yields `undefined`, so both are added). -/
def getAnchoredPattern (p : String) : String :=
  let cs := p.toList
  let a := if cs.head? = some '^' then cs else '^' :: cs
  let b := if cs.getLast? = some '$' then a else a ++ ['$']
  String.mk b

example : getAnchoredPattern ".*" = "^.*$" := rfl
example : getAnchoredPattern "" = "^$" := rfl

/-- `ObjectSchema.patternProps` over the entry list of the argument object.
Each iteration routes `__setDefaultProp('patternProperties', \x7b\x7d)` through
`__setProp` (which enforces the lock) when the key is absent.  The duplicate
check is against the raw pattern while storage uses the anchored pattern,
exactly as in the source. -/
def Schema.patternProps (s : Schema) (entries : List (String × Schema)) :
    Except String Schema :=
  match entries with
  | [] => .ok s
  | (name, schema) :: rest =>
    let step : Except String Schema :=
      if bagHas s.props "patternProperties" then .ok s
      else
        match s.setProp "patternProperties" (.obj []) false with
        | .error e => .error e
        | .ok (s', _) => .ok s'
    match step with
    | .error e => .error e
    | .ok s1 =>
      let patEntries :=
        match bagGet s1.props "patternProperties" with
        | some (.obj kvs) => kvs
        | _ => []
      if bagHas patEntries name then
        .error s!"Pattern {name} already exists"
      else
        let anchoredName := getAnchoredPattern name
        let lockedChild := schema.lock
        let s2 := { s1 with
          patKeys := keysAdd s1.patKeys anchoredName
          props := bagSet s1.props "patternProperties"
            (.obj (bagSet patEntries anchoredName (.obj lockedChild.properties))) }
        s2.patternProps rest

/-- `StringSchema.pattern` (the `RegExp` branch just takes the source string,
so the model takes the pattern string directly). -/
def Schema.pattern (s : Schema) (p : String) : Except String (Schema × Bool) :=
  s.setProp "pattern" (.str (getAnchoredPattern p)) false

/-- `StringSchema.enum` (the variadic `[...arguments]` branch is not modelled:
the model always receives the value list). -/
def Schema.enum (s : Schema) (validValues : List JVal) :
    Except String (Schema × Bool) :=
  if validValues.length ≥ 1 then s.setProp "enum" (.arr validValues) false
  else .error "Enum must contain at least 1 value."

/-- `Math.pow(2, 31) - 1`. -/
def INT32_MAX : Int := 2 ^ 31 - 1

/-- `-Math.pow(2, 31)`. -/
def INT32_MIN : Int := -(2 ^ 31)

/-- `Math.pow(2, 62)`. -/
def INT64_MAX : Int := 2 ^ 62

/-- `-Math.pow(2, 62)`. -/
def INT64_MIN : Int := -(2 ^ 62)

/-- `IntegerSchema.__setSafeRangeLimit`.  The source discards the result of
`this.max(val)` / `this.min(-val)`, but on the reachable path (unlocked node,
bound not yet present) those calls mutate the receiver in place, so the model
threads their result; no code path stores a non-number bound, so that
unreachable case is modelled as failing the assertion. -/
def Schema.setSafeRangeLimit (s : Schema) (val : Int) : Except String Schema :=
  let step1 : Except String Schema :=
    match s.getProp s.kind.maxPropName with
    | none =>
      match s.max val with
      | .error e => .error e
      | .ok (s', _) => .ok s'
    | some (.int m) =>
      if m ≤ val then .ok s else .error s!"max cannot exceed {val}"
    | some _ => .error s!"max cannot exceed {val}"
  match step1 with
  | .error e => .error e
  | .ok s1 =>
    let negVal := -val
    match s1.getProp s1.kind.minPropName with
    | none =>
      match s1.min negVal with
      | .error e => .error e
      | .ok (s', _) => .ok s'
    | some (.int m) =>
      if m ≥ negVal then .ok s1 else .error s!"min must be larger than {negVal}"
    | some _ => .error s!"min must be larger than {negVal}"

/-- `IntegerSchema.asInt32`. -/
def Schema.asInt32 (s : Schema) : Except String Schema :=
  s.setSafeRangeLimit INT32_MAX

/-- `IntegerSchema.asInt64`. -/
def Schema.asInt64 (s : Schema) : Except String Schema :=
  s.setSafeRangeLimit INT64_MAX

/-- `MapSchema` instance state: the inherited `ObjectSchema` state plus the
map-specific fields (`prop`/`props`/`patternProps` are deleted from the public
surface by the constructor; internal calls go through `super`). -/
structure MapSchema where
  base : Schema
  finalized : Bool
  keySchema : Option Schema
  valueSchema : Option Schema

/-- `new MapSchema()`. -/
def newMapSchema : MapSchema :=
  { base := newSchema .object
    finalized := false
    keySchema := none
    valueSchema := none }

/-- `MapSchema.__tryFinalizeSchema`: once both key and value schemas exist and
the map is not yet finalized, installs the single pattern property keyed by
the key schema's pattern (`'.*'` when the key schema has none; a non-string
stored pattern would be stringified by the computed property name). -/
def MapSchema.tryFinalizeSchema (m : MapSchema) : Except String MapSchema :=
  match m.keySchema, m.valueSchema with
  | some ks, some vs =>
    if m.finalized then .ok m
    else
      let patName :=
        match ks.getProp "pattern" with
        | none => ".*"
        | some v => jsToString v
      match m.base.patternProps [(patName, vs)] with
      | .error e => .error e
      | .ok base' => .ok { m with base := base', finalized := true }
  | _, _ => .ok m

/-- `MapSchema.keyPattern`: builds `S.str.pattern(pattern).lock()` as the key
schema. -/
def MapSchema.keyPattern (m : MapSchema) (pattern : String) :
    Except String MapSchema :=
  if m.keySchema.isSome then .error "key pattern already set"
  else
    match (newSchema .string).pattern pattern with
    | .error e => .error e
    | .ok (ks, _) =>
      MapSchema.tryFinalizeSchema { m with keySchema := some ks.lock }

/-- `MapSchema.value`. -/
def MapSchema.value (m : MapSchema) (value : Schema) : Except String MapSchema :=
  if m.valueSchema.isSome then .error "value schema already set"
  else if !value.required then .error "value must be required"
  else MapSchema.tryFinalizeSchema { m with valueSchema := some value.lock }

/-- `MapSchema.__finalizeSchema`: requires a value schema, defaults the key
schema to a fresh unconstrained `S.str`, then finalizes. -/
def MapSchema.finalizeSchema (m : MapSchema) : Except String MapSchema :=
  if m.valueSchema.isNone then .error "Must have a value schema"
  else
    let m1 :=
      if m.keySchema.isNone then { m with keySchema := some (newSchema .string) }
      else m
    m1.tryFinalizeSchema

/-- `MapSchema.export` via the JSON-schema visitor: finalize, then return the
(object-kind) property bag with the derived `additionalProperties`. -/
def MapSchema.exportBag (m : MapSchema) : Except String Bag :=
  match m.finalizeSchema with
  | .error e => .error e
  | .ok m1 => .ok m1.base.properties

example :
    (match newMapSchema.value (newSchema .integer) with
     | .ok m => m.exportBag
     | .error e => .error e) =
    .ok [("type", .str "object"),
         ("patternProperties", .obj [("^.*$", .obj [("type", .str "integer")])]),
         ("additionalProperties", .bool false)] := rfl

/-! ## Dictionary lemmas -/

theorem bagGet_bagSet_self (b : Bag) (k : String) (v : JVal) :
    bagGet (bagSet b k v) k = some v := by
  induction b with
  | nil => simp [bagSet, bagGet]
  | cons kv rest ih =>
    obtain ⟨k', v'⟩ := kv
    by_cases h : k' = k
    · simp [bagSet, bagGet, h]
    · simp [bagSet, bagGet, h, ih]

theorem bagGet_bagSet_ne (b : Bag) (k k' : String) (v : JVal) (h : k' ≠ k) :
    bagGet (bagSet b k v) k' = bagGet b k' := by
  have hk : ¬k = k' := fun hh => h hh.symm
  induction b with
  | nil => simp [bagSet, bagGet, hk]
  | cons kv rest ih =>
    obtain ⟨k0, v0⟩ := kv
    by_cases h0 : k0 = k
    · subst h0
      simp [bagSet, bagGet, hk]
    · by_cases h1 : k0 = k'
      · simp [bagSet, bagGet, h0, h1, h]
      · simp [bagSet, bagGet, h0, h1, ih]

theorem bagHas_bagSet_self (b : Bag) (k : String) (v : JVal) :
    bagHas (bagSet b k v) k = true := by
  simp [bagHas, bagGet_bagSet_self]

theorem keysAdd_ne_nil (ks : List String) (k : String) : keysAdd ks k ≠ [] := by
  cases ks with
  | nil => simp [keysAdd]
  | cons a t => unfold keysAdd; split <;> simp

/-! ## Pattern anchoring (C9) -/

theorem anchoredPattern_toList (p : String) :
    (getAnchoredPattern p).toList =
      if p.toList.getLast? = some '$' then
        (if p.toList.head? = some '^' then p.toList else '^' :: p.toList)
      else
        (if p.toList.head? = some '^' then p.toList else '^' :: p.toList) ++ ['$'] := rfl

theorem lastCons {x : Char} {l : List Char} (h : l ≠ []) :
    (x :: l).getLast? = l.getLast? := by
  cases l with
  | nil => exact absurd rfl h
  | cons y ys => rw [List.getLast?_cons_cons]

theorem lastAppendSingle (l : List Char) (a : Char) :
    (l ++ [a]).getLast? = some a := by
  induction l with
  | nil => rfl
  | cons x xs ih =>
    rw [List.cons_append, lastCons (by simp), ih]

theorem anchoredPattern_head (p : String) :
    (getAnchoredPattern p).toList.head? = some '^' := by
  rw [anchoredPattern_toList]
  by_cases h2 : (p.toList.getLast? = some '$') <;>
    by_cases h1 : (p.toList.head? = some '^')
  · rw [if_pos h2, if_pos h1]
    exact h1
  · rw [if_pos h2, if_neg h1]
    rfl
  · rw [if_neg h2, if_pos h1]
    cases hc : p.toList with
    | nil => rw [hc] at h1; exact absurd h1 (by simp)
    | cons c t =>
      rw [hc] at h1
      rw [List.cons_append]
      exact h1
  · rw [if_neg h2, if_neg h1]
    rw [List.cons_append]
    rfl

theorem anchoredPattern_getLast (p : String) :
    (getAnchoredPattern p).toList.getLast? = some '$' := by
  rw [anchoredPattern_toList]
  by_cases h2 : (p.toList.getLast? = some '$') <;>
    by_cases h1 : (p.toList.head? = some '^')
  · rw [if_pos h2, if_pos h1]
    exact h2
  · rw [if_pos h2, if_neg h1]
    have hne : p.toList ≠ [] := by
      intro hnil
      rw [hnil] at h2
      exact absurd h2 (by simp)
    rw [lastCons hne]
    exact h2
  · rw [if_neg h2, if_pos h1]
    exact lastAppendSingle _ _
  · rw [if_neg h2, if_neg h1]
    exact lastAppendSingle _ _

theorem anchoredPattern_fixed (q : String) (h1 : q.toList.head? = some '^')
    (h2 : q.toList.getLast? = some '$') : getAnchoredPattern q = q := by
  have h3 : (getAnchoredPattern q).toList = q.toList := by
    rw [anchoredPattern_toList, if_pos h2, if_pos h1]
  cases q with
  | mk data =>
    cases hg : getAnchoredPattern (String.mk data) with
    | mk data' =>
      have h4 := h3
      rw [hg] at h4
      have h5 : data' = data := h4
      rw [h5]

theorem anchoredPattern_idem (p : String) :
    getAnchoredPattern (getAnchoredPattern p) = getAnchoredPattern p :=
  anchoredPattern_fixed _ (anchoredPattern_head p) (anchoredPattern_getLast p)

/-- C9: pattern anchoring is idempotent; every anchored result begins with `^`
and ends with `$`; an already-anchored pattern is left unchanged, so
`StringSchema.pattern` (which stores `getAnchoredPattern p`) stores `p`
itself, and `ObjectSchema.patternProps` (which keys the stored entry by
`getAnchoredPattern name`) keys it by the original pattern. -/
theorem anchoring_idempotent_c9 : ∀ p : String,
    getAnchoredPattern (getAnchoredPattern p) = getAnchoredPattern p ∧
    (getAnchoredPattern p).toList.head? = some '^' ∧
    (getAnchoredPattern p).toList.getLast? = some '$' ∧
    (p.toList.head? = some '^' → p.toList.getLast? = some '$' →
      getAnchoredPattern p = p ∧
      ∀ s : Schema, s.pattern p = s.setProp "pattern" (.str p) false) := by
  intro p
  refine ⟨anchoredPattern_idem p, anchoredPattern_head p, anchoredPattern_getLast p,
    fun h1 h2 => ⟨anchoredPattern_fixed p h1 h2, fun s => ?_⟩⟩
  rw [Schema.pattern, anchoredPattern_fixed p h1 h2]

/-- Witness for C9 at the concrete pattern `^[a-z]+$`. -/
theorem anchoring_idempotent_c9_witness :
    getAnchoredPattern (getAnchoredPattern "^[a-z]+$") = getAnchoredPattern "^[a-z]+$" ∧
    getAnchoredPattern "^[a-z]+$" = "^[a-z]+$" ∧
    (newSchema .string).pattern "^[a-z]+$" =
      (newSchema .string).setProp "pattern" (.str "^[a-z]+$") false := by
  have h := anchoring_idempotent_c9 "^[a-z]+$"
  exact ⟨h.1, (h.2.2.2 rfl rfl).1, (h.2.2.2 rfl rfl).2 (newSchema .string)⟩

/-! ## Lock / copy-on-write discipline (C1, C8) -/

theorem setProp_locked (s : Schema) (h : s.isLocked = true) (name : String)
    (v : JVal) :
    s.setProp name v false =
      .error "Schema is locked. Call copy then further modify the schema" := by
  simp [Schema.setProp, h]

theorem setProp_locked_override (s : Schema) (h : s.isLocked = true)
    (name : String) (v : JVal) :
    s.setProp name v true =
      .ok ({ kind := s.kind, props := bagSet s.props name v, isLocked := true,
             isOptional := s.isOptional, isFloat := s.isFloat,
             objKeys := s.objKeys, patKeys := s.patKeys }, false) := by
  simp [Schema.setProp, h, Schema.copy, Schema.lock]

theorem setProp_already_set (s : Schema) (name : String) (v : JVal)
    (hl : s.isLocked = false) (hh : bagHas s.props name = true) :
    s.setProp name v false = .error s!"Property {name} is already set." := by
  simp [Schema.setProp, hl, hh]

theorem setProp_ok_shape (s s₁ : Schema) (name : String) (v : JVal) (b : Bool)
    (h : s.setProp name v false = .ok (s₁, b)) :
    s₁.isLocked = false ∧ bagHas s₁.props name = true := by
  unfold Schema.setProp at h
  cases hl : s.isLocked with
  | true => rw [hl] at h; simp at h
  | false =>
    rw [hl] at h
    cases hh : bagHas s.props name with
    | true => rw [hh] at h; simp at h
    | false =>
      rw [hh] at h
      simp at h
      obtain ⟨h1, _⟩ := h
      rw [← h1]
      exact ⟨hl, bagHas_bagSet_self _ _ _⟩

theorem min_fails_locked (s : Schema) (h : s.isLocked = true) (v : Int) :
    ∃ e, s.min v = .error e := by
  cases hr : s.min v with
  | error e => exact ⟨e, rfl⟩
  | ok p =>
    exfalso
    unfold Schema.min at hr
    have hsp := fun name val => setProp_locked s h name val
    split at hr
    all_goals simp_all [hsp]
    all_goals cases hv : validateRangeProperty s.kind s.kind.minPropName v
    all_goals simp_all
    all_goals try split at hr
    all_goals simp_all

theorem max_fails_locked (s : Schema) (h : s.isLocked = true) (v : Int) :
    ∃ e, s.max v = .error e := by
  cases hr : s.max v with
  | error e => exact ⟨e, rfl⟩
  | ok p =>
    exfalso
    unfold Schema.max at hr
    have hsp := fun name val => setProp_locked s h name val
    split at hr
    all_goals simp_all [hsp]
    all_goals cases hv : validateRangeProperty s.kind s.kind.maxPropName v
    all_goals simp_all
    all_goals try split at hr
    all_goals simp_all

/-- C1 (amended): on a locked node the override-allowed metadata setters
(`desc`, `title`, `examples`) succeed on and return an independent copy
(second component `false` records `ret !== this`, so the receiver is
untouched) holding the new value — but `__setProp` re-locks that copy, so it
is locked, and further non-override mutation of it fails; every non-override
setter on a locked node fails. -/
theorem locked_override_copy_c1 (s : Schema) (h : s.isLocked = true) :
    (∀ t, ∃ r, s.desc (.str t) = .ok (r, false) ∧
      r.isLocked = true ∧
      bagGet r.props "description" = some (.str (descNormalize t)) ∧
      (∀ k, k ≠ "description" → bagGet r.props k = bagGet s.props k) ∧
      (∀ b, r.readOnly b =
        .error "Schema is locked. Call copy then further modify the schema")) ∧
    (∀ t, ∃ r, s.title (.str t) = .ok (r, false) ∧ r.isLocked = true ∧
      bagGet r.props "title" = some (.str t)) ∧
    (∀ xs, ∃ r, s.examples (.arr xs) = .ok (r, false) ∧ r.isLocked = true) ∧
    (∀ v, s.default (some v) =
      .error "Schema is locked. Call copy then further modify the schema") ∧
    (∀ b, s.readOnly b =
      .error "Schema is locked. Call copy then further modify the schema") ∧
    (∀ p, s.pattern p =
      .error "Schema is locked. Call copy then further modify the schema") ∧
    (∀ v, ∃ e, s.min v = .error e) ∧
    (∀ v, ∃ e, s.max v = .error e) ∧
    s.optional = .error "Schema is locked." := by
  refine ⟨?_, ?_, ?_, ?_, ?_, ?_, min_fails_locked s h, max_fails_locked s h, ?_⟩
  · intro t
    refine ⟨{ kind := s.kind, props := bagSet s.props "description" (.str (descNormalize t)),
              isLocked := true, isOptional := s.isOptional, isFloat := s.isFloat,
              objKeys := s.objKeys, patKeys := s.patKeys },
           setProp_locked_override s h _ _, rfl, bagGet_bagSet_self _ _ _, ?_, ?_⟩
    · intro k hk
      exact bagGet_bagSet_ne _ _ _ _ hk
    · intro b
      exact setProp_locked _ rfl _ _
  · intro t
    exact ⟨{ kind := s.kind, props := bagSet s.props "title" (.str t),
             isLocked := true, isOptional := s.isOptional, isFloat := s.isFloat,
             objKeys := s.objKeys, patKeys := s.patKeys },
           setProp_locked_override s h _ _, rfl, bagGet_bagSet_self _ _ _⟩
  · intro xs
    exact ⟨{ kind := s.kind,
             props := bagSet s.props "examples"
               (.arr (xs.map (fun e =>
                 match e with
                 | .arr ys => JVal.str (String.intercalate " " (ys.map jsToString))
                 | other => other))),
             isLocked := true, isOptional := s.isOptional, isFloat := s.isFloat,
             objKeys := s.objKeys, patKeys := s.patKeys },
           setProp_locked_override s h _ _, rfl⟩
  · intro v
    exact setProp_locked s h _ _
  · intro b
    exact setProp_locked s h _ _
  · intro p
    exact setProp_locked s h _ _
  · simp [Schema.optional, h]

/-- Witness for C1's amended theorem at a locked string node. -/
theorem locked_override_copy_c1_witness :
    ((newSchema .string).lock).isLocked = true ∧
    ((newSchema .string).lock).default (some (.int 1)) =
      .error "Schema is locked. Call copy then further modify the schema" :=
  ⟨rfl, (locked_override_copy_c1 ((newSchema .string).lock) rfl).2.2.2.1 (.int 1)⟩

/-- C1 as stated is false: on a locked node, `desc` does return a fresh copy
with the new description, but `__setProp` re-locks that copy
(`if (this.__isLocked) ret.lock()`), so the returned copy is locked and
further (non-override) mutation of it fails — the repository's own
`testAutoLockAfterAutoCopy` test asserts exactly this re-locking. -/
theorem locked_copy_relocked_counterexample_c1 :
    ((newSchema .string).lock).desc (.str "x") =
      .ok ({ kind := .string,
             props := [("type", .str "string"), ("description", .str "x")],
             isLocked := true, isOptional := false, isFloat := false,
             objKeys := [], patKeys := [] }, false) ∧
    ({ kind := SKind.string,
       props := [("type", JVal.str "string"), ("description", JVal.str "x")],
       isLocked := true, isOptional := false, isFloat := false,
       objKeys := [], patKeys := [] } : Schema).readOnly true =
      .error "Schema is locked. Call copy then further modify the schema" :=
  ⟨rfl, rfl⟩

/-! ## desc accepts only strings (C5) -/

/-- C5 (amended): `desc` accepts only a single string, which it trims and in
which it replaces every embedded newline by a space; an array argument fails
the `typeof` assertion with `Description must be a string.`. -/
theorem desc_single_string_c5 (s : Schema) (hl : s.isLocked = false)
    (hd : bagHas s.props "description" = false) :
    (∀ xs, s.desc (.arr xs) = .error "Description must be a string.") ∧
    (∀ t, s.desc (.str t) =
      .ok ({ s with props := bagSet s.props "description" (.str (descNormalize t)) },
           true)) ∧
    descNormalize "a b c" = "a b c" ∧
    descNormalize "a\nb\nc" = "a b c" ∧
    descNormalize " a b c\n" = "a b c" := by
  refine ⟨fun xs => rfl, ?_, rfl, rfl, rfl⟩
  intro t
  show s.setProp "description" (.str (descNormalize t)) true = _
  simp [Schema.setProp, hl, hd]

/-- Witness for C5's amended theorem at a fresh string node. -/
theorem desc_single_string_c5_witness :
    ((newSchema .string).isLocked = false ∧
      bagHas (newSchema .string).props "description" = false) ∧
    (newSchema .string).desc (.arr [.str "a", .str "b", .str "c"]) =
      .error "Description must be a string." :=
  ⟨⟨rfl, rfl⟩,
    (desc_single_string_c5 (newSchema .string) rfl rfl).1 [.str "a", .str "b", .str "c"]⟩

/-- C5 as stated is false: the current `desc` asserts `typeof d === 'string'`
before any array handling, so `desc(['a', 'b', 'c'])` throws instead of
storing the space-joined description that `desc('a b c')` stores (the
array-joining behavior existed only in the older bundled copy of the
library). -/
theorem desc_array_rejected_counterexample_c5 :
    (newSchema .string).desc (.arr [.str "a", .str "b", .str "c"]) =
      .error "Description must be a string." ∧
    (newSchema .string).desc (.str "a b c") =
      .ok ({ kind := .string,
             props := [("type", .str "string"), ("description", .str "a b c")],
             isLocked := false, isOptional := false, isFloat := false,
             objKeys := [], patKeys := [] }, true) :=
  ⟨rfl, rfl⟩

/-- C8: every set-once property (the non-override path of `__setProp`, used by
`default`, `readOnly`, `min`, `max`, `pattern`, `enum`) that was set by a
first successful call fails on a second call with the already-set error, and
still fails after an intervening `copy()` because `copy` deep-copies the
property bag without erasing the property. -/
theorem set_once_setters_c8 (s s₁ : Schema) (name : String) (v₁ v₂ v₃ : JVal)
    (b : Bool) (h : s.setProp name v₁ false = .ok (s₁, b)) :
    s₁.setProp name v₂ false = .error s!"Property {name} is already set." ∧
    (s₁.copy).setProp name v₃ false = .error s!"Property {name} is already set." := by
  obtain ⟨h1, h2⟩ := setProp_ok_shape s s₁ name v₁ b h
  refine ⟨setProp_already_set _ _ _ h1 h2, setProp_already_set _ _ _ rfl h2⟩

/-- The string node after a first `__setProp('default', 1)`. -/
def defaultSetStr : Schema :=
  { kind := .string
    props := [("type", .str "string"), ("default", .int 1)]
    isLocked := false
    isOptional := false
    isFloat := false
    objKeys := []
    patKeys := [] }

/-- Witness for C8 at a concrete string node and the `default` property. -/
theorem set_once_setters_c8_witness :
    (newSchema .string).setProp "default" (.int 1) false = .ok (defaultSetStr, true) ∧
    defaultSetStr.setProp "default" (.int 2) false =
      .error "Property default is already set." ∧
    (defaultSetStr.copy).setProp "default" (.int 3) false =
      .error "Property default is already set." :=
  ⟨rfl,
    (set_once_setters_c8 (newSchema .string) defaultSetStr "default"
      (.int 1) (.int 2) (.int 3) true rfl).1,
    (set_once_setters_c8 (newSchema .string) defaultSetStr "default"
      (.int 1) (.int 2) (.int 3) true rfl).2⟩

/-! ## Derived additionalProperties (C2) and prop failure (C10) -/

theorem bagHas_nil (k : String) : bagHas [] k = false := rfl

theorem bagGet_nil (k : String) : bagGet ([] : Bag) k = none := rfl

theorem bagHas_false_get_none {b : Bag} {k : String} (h : bagHas b k = false) :
    bagGet b k = none := by
  unfold bagHas at h
  cases hg : bagGet b k with
  | none => rfl
  | some v => rw [hg] at h; simp at h

theorem prop_ok_shape (s : Schema) (name : String) (child : Schema)
    (herr : (s.prop name (some child)).err = none) :
    ((s.prop name (some child)).node).kind = s.kind ∧
    ((s.prop name (some child)).node).objKeys = keysAdd s.objKeys name := by
  unfold Schema.prop at herr ⊢
  cases hl : s.isLocked with
  | true => simp [hl] at herr
  | false =>
    by_cases h1 : bagHas s.props "properties" = true
    · by_cases h2 : bagHas (propsEntries s) name = true
      · simp [hl, h1, h2] at herr
      · by_cases h3 : (child.lock).required = true <;>
          simp [hl, h1, h2, h3] at herr ⊢
    · have hent : propsEntries
          { kind := s.kind
            props := bagSet s.props "properties" (JVal.obj [])
            isLocked := false
            isOptional := s.isOptional
            isFloat := s.isFloat
            objKeys := s.objKeys
            patKeys := s.patKeys } = [] := by
        simp [propsEntries, bagGet_bagSet_self]
      by_cases h3 : (child.lock).required = true <;>
        simp [hl, h1, h3, hent, bagHas_nil] at herr ⊢

/-- C2: the exported `additionalProperties` of an Object node is `true` iff
the node has zero named and zero pattern children (no code path in the source
can set the instance field consulted for an explicit allow, so that disjunct
of the claim is vacuously false); a fresh Object node exports `true`, and the
node after any successful `prop` call exports `false`. -/
theorem additional_properties_c2 :
    (∀ s : Schema, s.kind = .object →
      (bagGet s.properties "additionalProperties" = some (.bool true) ↔
        (s.objKeys = [] ∧ s.patKeys = []))) ∧
    bagGet (newSchema .object).properties "additionalProperties" =
      some (.bool true) ∧
    (∀ (s : Schema) (name : String) (child : Schema), s.kind = .object →
      (s.prop name (some child)).err = none →
      bagGet ((s.prop name (some child)).node).properties "additionalProperties" =
        some (.bool false)) := by
  refine ⟨?_, rfl, ?_⟩
  · intro s hk
    simp [Schema.properties, hk, bagGet_bagSet_self, List.isEmpty_iff]
  · intro s name child hk herr
    obtain ⟨hkind, hobj⟩ := prop_ok_shape s name child herr
    have hk' : ((s.prop name (some child)).node).kind = .object := by rw [hkind, hk]
    cases hke : keysAdd s.objKeys name with
    | nil => exact absurd hke (keysAdd_ne_nil _ _)
    | cons a t =>
      simp [Schema.properties, hk', bagGet_bagSet_self, hobj, hke]

/-- Witness for C2 at a fresh Object node and a one-`prop` node. -/
theorem additional_properties_c2_witness :
    (newSchema .object).kind = .object ∧
    (bagGet (newSchema .object).properties "additionalProperties" =
        some (.bool true) ↔
      ((newSchema .object).objKeys = [] ∧ (newSchema .object).patKeys = [])) ∧
    (((newSchema .object).prop "name" (some (newSchema .string))).err = none ∧
      bagGet (((newSchema .object).prop "name"
          (some (newSchema .string))).node).properties "additionalProperties" =
        some (.bool false)) :=
  ⟨rfl, (additional_properties_c2.1 (newSchema .object) rfl),
    ⟨rfl, additional_properties_c2.2.2 (newSchema .object) "name" (newSchema .string)
      rfl rfl⟩⟩

/-- C10: `prop(name, undefined)` on an unlocked object node with a fresh name
always fails with the schema-definedness assertion, and neither the
`objectSchemas` child map nor the `required` list nor the stored `properties`
sub-bag gains an entry for `name` (the call may at most create the empty
`properties` entry). -/
theorem prop_undefined_schema_c10 (s : Schema) (name : String)
    (hl : s.isLocked = false) (hfresh : bagHas (propsEntries s) name = false) :
    (s.prop name none).err = some s!"Property {name} must define a schema" ∧
    (s.prop name none).node.objKeys = s.objKeys ∧
    bagGet (s.prop name none).node.props "required" = bagGet s.props "required" ∧
    propsEntries ((s.prop name none).node) = propsEntries s := by
  unfold Schema.prop
  by_cases h1 : bagHas s.props "properties" = true
  · simp [hl, h1, hfresh]
  · have hnone : bagGet s.props "properties" = none := bagHas_false_get_none (by
      cases hb : bagHas s.props "properties"
      · rfl
      · exact absurd hb h1)
    have hent : propsEntries
        { kind := s.kind
          props := bagSet s.props "properties" (JVal.obj [])
          isLocked := false
          isOptional := s.isOptional
          isFloat := s.isFloat
          objKeys := s.objKeys
          patKeys := s.patKeys } = [] := by
      simp [propsEntries, bagGet_bagSet_self]
    have hents : propsEntries s = [] := by simp [propsEntries, hnone]
    simp [hl, h1, hent, hents, bagHas_nil,
      bagGet_bagSet_ne _ _ _ _ (by decide : "required" ≠ "properties")]

/-- Witness for C10 at a fresh Object node. -/
theorem prop_undefined_schema_c10_witness :
    ((newSchema .object).isLocked = false ∧
      bagHas (propsEntries (newSchema .object)) "a" = false) ∧
    ((newSchema .object).prop "a" none).err = some "Property a must define a schema" ∧
    ((newSchema .object).prop "a" none).node.objKeys = (newSchema .object).objKeys :=
  ⟨⟨rfl, rfl⟩, (prop_undefined_schema_c10 (newSchema .object) "a" rfl rfl).1,
    (prop_undefined_schema_c10 (newSchema .object) "a" rfl rfl).2.1⟩

/-! ## min/max cross-checks (C6) -/

theorem already_set_msg_head (name : String) :
    (s!"Property {name} is already set.").toList.head? = some 'P' := rfl

theorem already_set_msg_ne (name msg : String)
    (hm : msg.toList.head? ≠ some 'P') :
    s!"Property {name} is already set." ≠ msg :=
  fun h => hm (h ▸ already_set_msg_head name)

theorem setProp_error_cases (s : Schema) (name : String) (v : JVal) (e : String)
    (h : s.setProp name v false = .error e) :
    e = "Schema is locked. Call copy then further modify the schema" ∨
    e = s!"Property {name} is already set." := by
  unfold Schema.setProp at h
  split at h
  · simp at h
    exact .inl h.symm
  · split at h
    · simp at h
      exact .inr h.symm
    · simp at h

theorem setProp_ne_error (s : Schema) (name : String) (v : JVal) (msg : String)
    (h1 : msg ≠ "Schema is locked. Call copy then further modify the schema")
    (h2 : msg.toList.head? ≠ some 'P') :
    s.setProp name v false ≠ .error msg := by
  intro h
  rcases setProp_error_cases s name v msg h with he | he
  · exact h1 he
  · exact already_set_msg_ne name msg h2 he.symm

/-- C6: for every node and integer bound `v` (with the stored opposite bound,
if any, an integer as the API guarantees), `min(v)` fails with
`min must be less than max` exactly when an already-set maximum is smaller
than `v`, and `max(v)` fails with `max must be more than min` exactly when an
already-set minimum is larger than `v`; with no opposite bound stored the
cross-check cannot fail. -/
theorem min_max_cross_check_c6 (s : Schema) (v : Int)
    (hvmin : validateRangeProperty s.kind s.kind.minPropName v = .ok ())
    (hvmax : validateRangeProperty s.kind s.kind.maxPropName v = .ok ())
    (hwmax : s.getProp s.kind.maxPropName = none ∨
      ∃ m, s.getProp s.kind.maxPropName = some (.int m))
    (hwmin : s.getProp s.kind.minPropName = none ∨
      ∃ m, s.getProp s.kind.minPropName = some (.int m)) :
    ((s.min v = .error "min must be less than max") ↔
      ∃ m, s.getProp s.kind.maxPropName = some (.int m) ∧ m < v) ∧
    ((s.max v = .error "max must be more than min") ↔
      ∃ m, s.getProp s.kind.minPropName = some (.int m) ∧ v < m) := by
  constructor
  · rcases hwmax with hm | ⟨m, hm⟩
    · simp only [Schema.min, hvmin, hm]
      constructor
      · intro h
        exact absurd h (setProp_ne_error _ _ _ _ (by decide) (by decide))
      · rintro ⟨m, hm', _⟩
        simp at hm'
    · simp only [Schema.min, hvmin, hm]
      by_cases hge : m ≥ v
      · rw [if_pos (by simpa using hge)]
        constructor
        · intro h
          exact absurd h (setProp_ne_error _ _ _ _ (by decide) (by decide))
        · rintro ⟨m', hm', hlt⟩
          simp at hm'
          omega
      · rw [if_neg (by simpa using hge)]
        constructor
        · intro _
          exact ⟨m, rfl, by omega⟩
        · intro _
          rfl
  · rcases hwmin with hm | ⟨m, hm⟩
    · simp only [Schema.max, hvmax, hm]
      constructor
      · intro h
        exact absurd h (setProp_ne_error _ _ _ _ (by decide) (by decide))
      · rintro ⟨m, hm', _⟩
        simp at hm'
    · simp only [Schema.max, hvmax, hm]
      by_cases hle : m ≤ v
      · rw [if_pos (by simpa using hle)]
        constructor
        · intro h
          exact absurd h (setProp_ne_error _ _ _ _ (by decide) (by decide))
        · rintro ⟨m', hm', hlt⟩
          simp at hm'
          omega
      · rw [if_neg (by simpa using hle)]
        constructor
        · intro _
          exact ⟨m, rfl, by omega⟩
        · intro _
          rfl

/-- Witness for C6 at an integer node carrying `maximum = 3`, with `v = 5`. -/
theorem min_max_cross_check_c6_witness :
    ((({ kind := .integer, props := [("type", .str "integer"), ("maximum", .int 3)],
         isLocked := false, isOptional := false, isFloat := false,
         objKeys := [], patKeys := [] } : Schema).min 5 =
        .error "min must be less than max") ↔
      ∃ m, ({ kind := .integer,
              props := [("type", JVal.str "integer"), ("maximum", JVal.int 3)],
              isLocked := false, isOptional := false, isFloat := false,
              objKeys := [], patKeys := [] } : Schema).getProp
          SKind.integer.maxPropName = some (.int m) ∧ m < 5) :=
  (min_max_cross_check_c6
    { kind := .integer, props := [("type", .str "integer"), ("maximum", .int 3)],
      isLocked := false, isOptional := false, isFloat := false,
      objKeys := [], patKeys := [] } 5 rfl rfl (.inr ⟨3, rfl⟩) (.inl rfl)).1

theorem lock_required (c : Schema) : (c.lock).required = c.required := rfl

theorem lock_isLocked (c : Schema) : (c.lock).isLocked = true := rfl

theorem bagGet_set_req_prop (b : Bag) (v : JVal) :
    bagGet (bagSet b "properties" v) "required" = bagGet b "required" :=
  bagGet_bagSet_ne _ _ _ _ (by decide)

theorem bagGet_set_prop_req (b : Bag) (v : JVal) :
    bagGet (bagSet b "required" v) "properties" = bagGet b "properties" :=
  bagGet_bagSet_ne _ _ _ _ (by decide)

/-! ## Object prop attachment (C7) -/

/-- `S.int.optional` from the C7 scenario. -/
def intOptional : Schema :=
  { kind := .integer
    props := [("type", .str "integer")]
    isLocked := false
    isOptional := true
    isFloat := false
    objKeys := []
    patKeys := [] }

/-- `S.obj().prop('name', S.str).prop('age', S.int.optional)`. -/
def objNameAge : PropResult :=
  (((newSchema .object).prop "name" (some (newSchema .string))).node).prop
    "age" (some intOptional)

/-- C7: on an unlocked Object node with a fresh name, `prop(name, child)`
succeeds, locks the child, stores the child's exported sub-bag under `name`
in the `properties` entry, appends `name` to the `required` list exactly when
the child is required (creating the list on first use), and mutates and
returns the receiver (same kind, still unlocked; reference identity is not
expressible in a value model, but the result is the in-place-updated
receiver, never a copy).  The name/age scenario exports
`required = ['name']`, `additionalProperties = false`, and
`properties.age.type = 'integer'`. -/
theorem object_prop_attach_c7 :
    (∀ (s : Schema) (name : String) (child : Schema), s.kind = .object →
      s.isLocked = false → bagHas (propsEntries s) name = false →
      (s.prop name (some child)).err = none ∧
      (s.prop name (some child)).lockedChild = some child.lock ∧
      (child.lock).isLocked = true ∧
      bagGet (propsEntries ((s.prop name (some child)).node)) name =
        some (.obj (child.lock).properties) ∧
      (child.required = true →
        bagGet ((s.prop name (some child)).node).props "required" =
          some (.arr (requiredList s ++ [.str name]))) ∧
      (child.required = false →
        bagGet ((s.prop name (some child)).node).props "required" =
          bagGet s.props "required") ∧
      ((s.prop name (some child)).node).kind = s.kind ∧
      ((s.prop name (some child)).node).isLocked = false) ∧
    ((newSchema .integer).optional = .ok intOptional ∧
      ((newSchema .object).prop "name" (some (newSchema .string))).err = none ∧
      objNameAge.err = none ∧
      bagGet objNameAge.node.properties "required" = some (.arr [.str "name"]) ∧
      bagGet objNameAge.node.properties "additionalProperties" =
        some (.bool false) ∧
      (match bagGet (propsEntries objNameAge.node) "age" with
       | some (.obj ageBag) => bagGet ageBag "type"
       | _ => none) = some (.str "integer")) := by
  constructor
  · intro s name child hk hl hfresh
    unfold Schema.prop
    unfold propsEntries at hfresh ⊢
    by_cases h1 : bagHas s.props "properties" = true
    · by_cases h3 : child.required = true <;>
        simp [hl, h1, h3, hfresh, lock_required, lock_isLocked, requiredList,
          bagGet_bagSet_self, bagGet_set_req_prop, bagGet_set_prop_req, bagHas_nil]
    · have hg : bagGet s.props "properties" = none := bagHas_false_get_none (by
        cases hb : bagHas s.props "properties"
        · rfl
        · exact absurd hb h1)
      by_cases h3 : child.required = true <;>
        simp [hl, h1, h3, hg, hfresh, lock_required, lock_isLocked, requiredList,
          bagGet_bagSet_self, bagGet_set_req_prop, bagGet_set_prop_req,
          bagHas_nil, bagHas, bagGet_nil]
  · exact ⟨rfl, rfl, rfl, rfl, rfl, rfl⟩

/-- Witness for C7's generic part at a fresh Object node and string child. -/
theorem object_prop_attach_c7_witness :
    ((newSchema .object).kind = .object ∧ (newSchema .object).isLocked = false ∧
      bagHas (propsEntries (newSchema .object)) "x" = false) ∧
    ((newSchema .object).prop "x" (some (newSchema .string))).err = none ∧
    ((newSchema .object).prop "x" (some (newSchema .string))).lockedChild =
      some (newSchema .string).lock :=
  ⟨⟨rfl, rfl, rfl⟩,
    (object_prop_attach_c7.1 (newSchema .object) "x" (newSchema .string) rfl rfl rfl).1,
    (object_prop_attach_c7.1 (newSchema .object) "x" (newSchema .string) rfl rfl rfl).2.1⟩

/-! ## Integer safe-range limits (C3) -/

theorem bagGet_set_max_min (b : Bag) (v : JVal) :
    bagGet (bagSet b "maximum" v) "minimum" = bagGet b "minimum" :=
  bagGet_bagSet_ne _ _ _ _ (by decide)

/-- Exact failure condition of `__setSafeRangeLimit` on an integer node whose
stored bounds (if any) are integers with `min ≤ max`: the call fails exactly
when one of the already-stored bounds lies outside the symmetric range
`[-B, B]`. -/
theorem setSafeRangeLimit_errors_iff (s : Schema) (B : Int)
    (hk : s.kind = .integer) (hl : s.isLocked = false) (hB : 0 < B)
    (hwmax : s.getProp "maximum" = none ∨ ∃ M, s.getProp "maximum" = some (.int M))
    (hwmin : s.getProp "minimum" = none ∨ ∃ m, s.getProp "minimum" = some (.int m))
    (hord : ∀ M m, s.getProp "maximum" = some (.int M) →
      s.getProp "minimum" = some (.int m) → m ≤ M) :
    ((∃ e, s.setSafeRangeLimit B = .error e) ↔
      ((∃ M, s.getProp "maximum" = some (.int M) ∧ (M < -B ∨ B < M)) ∨
       (∃ m, s.getProp "minimum" = some (.int m) ∧ (m < -B ∨ B < m)))) := by
  rcases hwmax with hM | ⟨M, hM⟩ <;> rcases hwmin with hm | ⟨m, hm⟩
  · -- both bounds absent: both steps set their bound and succeed
    have hM' : bagGet s.props "maximum" = none := hM
    have hm' : bagGet s.props "minimum" = none := hm
    have hstep1 : s.max B =
        .ok (⟨SKind.integer, bagSet s.props "maximum" (.int B), s.isLocked,
          s.isOptional, s.isFloat, s.objKeys, s.patKeys⟩, true) := by
      unfold Schema.max Schema.setProp
      simp [hk, SKind.maxPropName, SKind.minPropName, validateRangeProperty,
        Schema.getProp, hm', hl, bagHas, hM']
    have hstep2 :
        (⟨SKind.integer, bagSet s.props "maximum" (.int B), s.isLocked,
          s.isOptional, s.isFloat, s.objKeys, s.patKeys⟩ : Schema).min (-B) =
        .ok (⟨SKind.integer,
          bagSet (bagSet s.props "maximum" (.int B)) "minimum" (.int (-B)),
          s.isLocked, s.isOptional, s.isFloat, s.objKeys, s.patKeys⟩, true) := by
      unfold Schema.min Schema.setProp
      simp [hk, SKind.maxPropName, SKind.minPropName, validateRangeProperty,
        Schema.getProp, hl, bagHas, bagGet_bagSet_self, bagGet_set_max_min, hm',
        show -B ≤ B by omega]
    unfold Schema.setSafeRangeLimit
    simp [hk, SKind.maxPropName, SKind.minPropName, Schema.getProp, hM', hstep1,
      bagGet_set_max_min, hm', hstep2, hM', hm']
  · -- only minimum present
    have hM' : bagGet s.props "maximum" = none := hM
    have hm' : bagGet s.props "minimum" = some (.int m) := hm
    by_cases hc1 : m ≤ B
    · have hstep1 : s.max B =
          .ok ({ s with props := bagSet s.props "maximum" (.int B) }, true) := by
        unfold Schema.max Schema.setProp
        simp [hk, SKind.maxPropName, SKind.minPropName, validateRangeProperty,
          Schema.getProp, hm', hl, bagHas, hM', hc1]
      by_cases hc2 : -B ≤ m
      · unfold Schema.setSafeRangeLimit
        simp [hk, SKind.maxPropName, SKind.minPropName, Schema.getProp, hM',
          hstep1, bagGet_set_max_min, hm', hc2, hM', hm']
        omega
      · unfold Schema.setSafeRangeLimit
        simp [hk, SKind.maxPropName, SKind.minPropName, Schema.getProp, hM',
          hstep1, bagGet_set_max_min, hm', hc2, hM', hm']
        omega
    · have hstep1 : s.max B = .error "max must be more than min" := by
        unfold Schema.max
        simp [hk, SKind.maxPropName, SKind.minPropName, validateRangeProperty,
          Schema.getProp, hm', hc1]
      unfold Schema.setSafeRangeLimit
      simp [hk, SKind.maxPropName, SKind.minPropName, Schema.getProp, hM',
        hstep1, hm']
      omega
  · -- only maximum present
    have hM' : bagGet s.props "maximum" = some (.int M) := hM
    have hm' : bagGet s.props "minimum" = none := hm
    by_cases hc1 : M ≤ B
    · by_cases hc2 : -B ≤ M
      · have hstep2 : s.min (-B) =
            .ok ({ s with props := bagSet s.props "minimum" (.int (-B)) }, true) := by
          unfold Schema.min Schema.setProp
          simp [hk, SKind.maxPropName, SKind.minPropName, validateRangeProperty,
            Schema.getProp, hM', hl, bagHas, hm', hc2]
        unfold Schema.setSafeRangeLimit
        simp [hk, SKind.maxPropName, SKind.minPropName, Schema.getProp, hM',
          hc1, hm', hstep2, hM', hm']
        omega
      · have hstep2 : s.min (-B) = .error "min must be less than max" := by
          unfold Schema.min
          simp [hk, SKind.maxPropName, SKind.minPropName, validateRangeProperty,
            Schema.getProp, hM', hc2]
        unfold Schema.setSafeRangeLimit
        simp [hk, SKind.maxPropName, SKind.minPropName, Schema.getProp, hM',
          hc1, hm', hstep2, hM', hm']
        omega
    · unfold Schema.setSafeRangeLimit
      simp [hk, SKind.maxPropName, SKind.minPropName, Schema.getProp, hM',
        hc1, hM', hm']
      omega
  · -- both bounds present
    have hM' : bagGet s.props "maximum" = some (.int M) := hM
    have hm' : bagGet s.props "minimum" = some (.int m) := hm
    have hmM : m ≤ M := hord M m hM hm
    by_cases hc1 : M ≤ B
    · by_cases hc2 : -B ≤ m
      · unfold Schema.setSafeRangeLimit
        simp [hk, SKind.maxPropName, SKind.minPropName, Schema.getProp, hM',
          hc1, hm', hc2, hM', hm']
        omega
      · unfold Schema.setSafeRangeLimit
        simp [hk, SKind.maxPropName, SKind.minPropName, Schema.getProp, hM',
          hc1, hm', hc2, hM', hm']
        omega
    · unfold Schema.setSafeRangeLimit
      simp [hk, SKind.maxPropName, SKind.minPropName, Schema.getProp, hM',
        hc1, hM', hm']
      omega

/-- The node produced by `S.int.asInt32()` with no prior bounds: the minimum
is the negated safe bound `-INT32_MAX = -2147483647`, not `INT32_MIN`. -/
def intAfterInt32 : Schema :=
  { kind := .integer
    props := [("type", .str "integer"), ("maximum", .int 2147483647),
              ("minimum", .int (-2147483647))]
    isLocked := false
    isOptional := false
    isFloat := false
    objKeys := []
    patKeys := [] }

/-- An integer node whose `maximum` was set to `-3000000000`
(`IntegerSchema.__validateRangeProperty` only checks integrality, so a
negative maximum is accepted). -/
def intNodeMaxNeg : Schema :=
  { kind := .integer
    props := [("type", .str "integer"), ("maximum", .int (-3000000000))]
    isLocked := false
    isOptional := false
    isFloat := false
    objKeys := []
    patKeys := [] }

/-- An integer node with `maximum = 5`, for the C3 witness. -/
def intNodeMax5 : Schema :=
  { kind := .integer
    props := [("type", .str "integer"), ("maximum", .int 5)]
    isLocked := false
    isOptional := false
    isFloat := false
    objKeys := []
    patKeys := [] }

/-- C3 (amended): `asInt32()` on an integer node with no prior bounds sets
`maximum = 2147483647` and `minimum = -2147483647` (the code negates the safe
bound `INT32_MAX`, so the stored minimum is one above `INT32_MIN`); a
subsequent `max(2147483648)` fails (the property is already set); and on any unlocked
integer node whose stored bounds are integers with min ≤ max,
`asInt32()`/`asInt64()` fails exactly when an already-set bound lies outside
the symmetric safe range `[-bound, bound]` — not merely when the maximum
exceeds the bound or the minimum is below its negation, because the
automatically-set opposite bound cross-checks against the stored one. -/
theorem int_safe_range_c3 :
    (newSchema .integer).asInt32 = .ok intAfterInt32 ∧
    intAfterInt32.getProp "maximum" = some (.int 2147483647) ∧
    intAfterInt32.getProp "minimum" = some (.int (-2147483647)) ∧
    intAfterInt32.max 2147483648 = .error "Property maximum is already set." ∧
    (∀ s : Schema, s.kind = .integer → s.isLocked = false →
      (s.getProp "maximum" = none ∨ ∃ M, s.getProp "maximum" = some (.int M)) →
      (s.getProp "minimum" = none ∨ ∃ m, s.getProp "minimum" = some (.int m)) →
      (∀ M m, s.getProp "maximum" = some (.int M) →
        s.getProp "minimum" = some (.int m) → m ≤ M) →
      (((∃ e, s.asInt32 = .error e) ↔
         ((∃ M, s.getProp "maximum" = some (.int M) ∧
            (M < -INT32_MAX ∨ INT32_MAX < M)) ∨
          (∃ m, s.getProp "minimum" = some (.int m) ∧
            (m < -INT32_MAX ∨ INT32_MAX < m)))) ∧
       ((∃ e, s.asInt64 = .error e) ↔
         ((∃ M, s.getProp "maximum" = some (.int M) ∧
            (M < -INT64_MAX ∨ INT64_MAX < M)) ∨
          (∃ m, s.getProp "minimum" = some (.int m) ∧
            (m < -INT64_MAX ∨ INT64_MAX < m)))))) := by
  refine ⟨rfl, rfl, rfl, rfl, ?_⟩
  intro s hk hl hwmax hwmin hord
  exact ⟨setSafeRangeLimit_errors_iff s INT32_MAX hk hl (by decide) hwmax hwmin hord,
         setSafeRangeLimit_errors_iff s INT64_MAX hk hl (by decide) hwmax hwmin hord⟩

/-- Witness for C3's amended general part at a node with `maximum = 5`. -/
theorem int_safe_range_c3_witness :
    (intNodeMax5.kind = .integer ∧ intNodeMax5.isLocked = false ∧
      intNodeMax5.getProp "maximum" = some (.int 5) ∧
      intNodeMax5.getProp "minimum" = none) ∧
    ((∃ e, intNodeMax5.asInt32 = .error e) ↔
      ((∃ M, intNodeMax5.getProp "maximum" = some (.int M) ∧
         (M < -INT32_MAX ∨ INT32_MAX < M)) ∨
       (∃ m, intNodeMax5.getProp "minimum" = some (.int m) ∧
         (m < -INT32_MAX ∨ INT32_MAX < m)))) :=
  ⟨⟨rfl, rfl, rfl, rfl⟩,
    (int_safe_range_c3.2.2.2.2 intNodeMax5 rfl rfl (.inr ⟨5, rfl⟩) (.inl rfl)
      (fun _ _ _ hm => nomatch hm)).1⟩

/-- C3 as stated is false in two parts.  First, `asInt32()` on a node with no
prior bounds stores `minimum = -2147483647` (the negated `INT32_MAX`), not
the exact 32-bit lower bound `-2147483648` the claim names.  Second, the
"fails exactly when that bound exceeds the safe bound" equivalence fails: a
node whose `maximum` is `-3000000000` (which does not exceed `INT32_MAX`)
still makes `asInt32()` fail, because the automatic `min(-2147483647)`
cross-checks against the stored maximum and reports
`min must be less than max`. -/
theorem asInt32_iff_counterexample_c3 :
    ((newSchema .integer).asInt32 = .ok intAfterInt32 ∧
      intAfterInt32.getProp "minimum" = some (.int (-2147483647)) ∧
      intAfterInt32.getProp "minimum" ≠ some (.int (-2147483648))) ∧
    (newSchema .integer).max (-3000000000) = .ok (intNodeMaxNeg, true) ∧
    intNodeMaxNeg.getProp "maximum" = some (.int (-3000000000)) ∧
    ((-3000000000 : Int) ≤ INT32_MAX) ∧
    intNodeMaxNeg.getProp "minimum" = none ∧
    intNodeMaxNeg.asInt32 = .error "min must be less than max" :=
  ⟨⟨rfl, rfl, by
      intro h
      have h2 : some (JVal.int (-2147483647)) = some (JVal.int (-2147483648)) := h
      simp at h2⟩, rfl, rfl, by decide, rfl, rfl⟩

/-! ## Map / pattern-property equivalence (C4) -/

/-- The structural schema both sides of C4 export: one pattern property under
the anchored pattern `^.*$` mapping to the value schema's bag, with
`additionalProperties = false`. -/
def mapEquivBag (V : Schema) : Bag :=
  [("type", .str "object"),
   ("patternProperties", .obj [("^.*$", .obj (V.lock).properties)]),
   ("additionalProperties", .bool false)]

/-- C4: a Map node given `value(V)` (V required) and no key schema exports,
after finalization, exactly the bag an Object node given
`patternProps({'.*': V})` exports: a single pattern property under `^.*$`
mapping to `V`'s property bag, with `additionalProperties = false`. -/
theorem map_object_pattern_equiv_c4 (V : Schema) (hV : V.required = true) :
    (∃ m, newMapSchema.value V = .ok m ∧ m.exportBag = .ok (mapEquivBag V)) ∧
    (∃ o, (newSchema .object).patternProps [(".*", V)] = .ok o ∧
      o.properties = mapEquivBag V) := by
  constructor
  · refine ⟨⟨newSchema .object, false, none, some V.lock⟩, ?_, rfl⟩
    unfold newMapSchema MapSchema.value MapSchema.tryFinalizeSchema
    simp [hV]
  · exact ⟨{ kind := .object
             props := [("type", .str "object"),
               ("patternProperties", .obj [("^.*$", .obj (V.lock).properties)])]
             isLocked := false
             isOptional := false
             isFloat := false
             objKeys := []
             patKeys := ["^.*$"] }, rfl, rfl⟩

/-- Witness for C4 at a required integer value schema. -/
theorem map_object_pattern_equiv_c4_witness :
    (newSchema .integer).required = true ∧
    (∃ m, newMapSchema.value (newSchema .integer) = .ok m ∧
      m.exportBag = .ok (mapEquivBag (newSchema .integer))) :=
  ⟨rfl, (map_object_pattern_equiv_c4 (newSchema .integer) rfl).1⟩
